import Mathlib

/-!
Shallow embedding of the careers_backend FastAPI application.

Embedded from the source files under app/: the endpoint handlers in
app/api/v1/endpoints/items.py and app/api/v1/endpoints/users.py, the
dependency app/api/deps.py, the configuration app/core/config.py and the
application wiring in app/main.py.  The data-access layer (app/crud), the
schemas (app/schemas), the models (app/models) and app/db/session are
referenced by those files but their code is not part of the source tree;
they are modelled from the specification where noted.
-/

namespace Careers

/-- Modelled from the spec: the Item read schema / model (app/models/item.py,
app/schemas/item.py are missing). An Item carries an auto-assigned integer
primary key plus descriptive fields from its create schema. -/
structure Item where
  id : Int
  title : String
  description : String
deriving Repr, DecidableEq

/-- Modelled from the spec: the Item create schema (app/schemas/item.py is
missing) — the accepted shape of input when making a new item, without the
server-assigned identity. -/
structure ItemCreate where
  title : String
  description : String
deriving Repr, DecidableEq

/-- Modelled from the spec: the User read schema / model (app/models/user.py,
app/schemas/user.py are missing). A User carries an auto-assigned integer
primary key and an email string. -/
structure User where
  id : Int
  email : String
deriving Repr, DecidableEq

/-- Modelled from the spec: the User create schema (app/schemas/user.py is
missing). -/
structure UserCreate where
  email : String
deriving Repr, DecidableEq

/-- The record store reached through a session: one table per entity plus the
auto-increment counter each table uses to assign the next primary key. -/
structure DB where
  items : List Item
  users : List User
  nextItemId : Int
  nextUserId : Int
deriving Repr, DecidableEq

/-- The store of a fresh run: empty tables, auto-increment counters at 1. -/
def emptyDB : DB := ⟨[], [], 1, 1⟩

/-- Modelled from the spec: crud.item.create_item (app/crud/item.py is
missing) — inserts one new record built from the input's fields, persisting
it with the auto-assigned identity, and returns the persisted record. -/
def create_item (db : DB) (item : ItemCreate) : Item × DB :=
  let created : Item := ⟨db.nextItemId, item.title, item.description⟩
  (created, { db with items := db.items ++ [created], nextItemId := db.nextItemId + 1 })

/-- Modelled from the spec: crud.item.get_item (app/crud/item.py is missing)
— returns the record matching the given identity, or an absent result. -/
def get_item (db : DB) (item_id : Int) : Option Item :=
  db.items.find? (fun it => it.id == item_id)

/-- Modelled from the spec: crud.user.create_user (app/crud/user.py is
missing). -/
def create_user (db : DB) (user : UserCreate) : User × DB :=
  let created : User := ⟨db.nextUserId, user.email⟩
  (created, { db with users := db.users ++ [created], nextUserId := db.nextUserId + 1 })

/-- Modelled from the spec: crud.user.get_user (app/crud/user.py is
missing). -/
def get_user (db : DB) (user_id : Int) : Option User :=
  db.users.find? (fun u => u.id == user_id)

/-- Modelled from the spec: crud.user.get_user_by_email (app/crud/user.py is
missing) — looks up the user record with the given email. The argument is
optional because deps.get_current_user defaults it to None; stored emails
are strings, so a None argument matches no record. -/
def get_user_by_email (db : DB) (email : Option String) : Option User :=
  match email with
  | none => none
  | some e => db.users.find? (fun u => u.email == e)

/-- An HTTPException as raised by the handlers: a status code and a detail
string (fastapi.HTTPException). -/
structure HTTPException where
  status_code : Int
  detail : String
deriving Repr, DecidableEq

/-- Embedded from app/api/v1/endpoints/items.py, read_item: look the item up
by id; raise HTTPException 404 "Item not found" when absent, otherwise
return the record (serialized via the Item read schema). -/
def read_item (db : DB) (item_id : Int) : Except HTTPException Item :=
  match get_item db item_id with
  | none => Except.error ⟨404, "Item not found"⟩
  | some db_item => Except.ok db_item

/-- Embedded from app/api/v1/endpoints/users.py, read_user. -/
def read_user (db : DB) (user_id : Int) : Except HTTPException User :=
  match get_user db user_id with
  | none => Except.error ⟨404, "User not found"⟩
  | some db_user => Except.ok db_user

/-- Embedded from app/api/deps.py, get_current_user: look the user up by
email; raise HTTPException 401 "Invalid credentials" when absent, otherwise
return the found user record. -/
def get_current_user (db : DB) (email : Option String) : Except HTTPException User :=
  match get_user_by_email db email with
  | none => Except.error ⟨401, "Invalid credentials"⟩
  | some user => Except.ok user

/-- Embedded from app/core/config.py: the Settings class with its default
field values (the .env file overrides are the configurability). -/
structure Settings where
  API_V1_STR : String := "/api/v1"
  DATABASE_URL : String := "sqlite:///./test.db"
  SECRET_KEY : String := "YOUR_SECRET_KEY"
  ACCESS_TOKEN_EXPIRE_MINUTES : Int := 30
deriving Repr, DecidableEq

/-- Embedded from app/core/config.py: the module-level `settings = Settings()`
instance, taking every default. -/
def settings : Settings := {}

/-- Embedded from app/main.py: the path the items router is mounted under,
f-string of settings.API_V1_STR and "/items". -/
def itemsMountPath (s : Settings) : String := s.API_V1_STR ++ "/items"

/-- Embedded from app/main.py: the path the users router is mounted under. -/
def usersMountPath (s : Settings) : String := s.API_V1_STR ++ "/users"

/-- Modelled from the spec: request bodies arrive as JSON objects and are
validated against the Create schemas (app/schemas is missing); a body is a
list of string fields keyed by name. -/
abbrev RawBody := List (String × String)

/-- Modelled from the spec: validation of a raw body against the ItemCreate
schema — every schema field must be present. -/
def parseItemCreate (body : RawBody) : Option ItemCreate :=
  match body.lookup "title", body.lookup "description" with
  | some t, some d => some ⟨t, d⟩
  | _, _ => none

/-- Modelled from the spec: validation of a raw body against the UserCreate
schema. -/
def parseUserCreate (body : RawBody) : Option UserCreate :=
  match body.lookup "email" with
  | some e => some ⟨e⟩
  | none => none

/-- A request to one of the routes the application mounts: the root route of
app/main.py and the four entity routes of app/api/v1/endpoints. -/
inductive Request where
  | getRoot : Request
  | postItem (body : RawBody) : Request
  | getItem (item_id : Int) : Request
  | postUser (body : RawBody) : Request
  | getUser (user_id : Int) : Request
deriving Repr, DecidableEq

/-- A response as seen by the client: an entity record serialized via its
Read schema, the root message object, an HTTPException turned into a status
and detail, or the schema layer's automatic validation error. -/
inductive Response where
  | itemBody (it : Item) : Response
  | userBody (u : User) : Response
  | message (m : String) : Response
  | failure (status : Int) (detail : String) : Response
  | validationError : Response
deriving Repr, DecidableEq

/-- Embedded from app/main.py, read_root: returns the static welcome
message object. -/
def read_root : Response := Response.message "Welcome to the FastAPI application!"

/-- The application's request dispatch: routes each request to its handler
(read_root in app/main.py; create_item, read_item, create_user, read_user in
app/api/v1/endpoints), validating POST bodies against the Create schema
first, and turns a raised HTTPException into a failure response. Returns the
response together with the store state after the request. -/
def handle (req : Request) (db : DB) : Response × DB :=
  match req with
  | .getRoot => (read_root, db)
  | .postItem body =>
    match parseItemCreate body with
    | none => (Response.validationError, db)
    | some item =>
      let r := create_item db item
      (Response.itemBody r.1, r.2)
  | .getItem item_id =>
    match read_item db item_id with
    | Except.ok it => (Response.itemBody it, db)
    | Except.error e => (Response.failure e.status_code e.detail, db)
  | .postUser body =>
    match parseUserCreate body with
    | none => (Response.validationError, db)
    | some user =>
      let r := create_user db user
      (Response.userBody r.1, r.2)
  | .getUser user_id =>
    match read_user db user_id with
    | Except.ok u => (Response.userBody u, db)
    | Except.error e => (Response.failure e.status_code e.detail, db)

/-- Whether a request uses the GET method. -/
def Request.isGet : Request → Bool
  | .getRoot => true
  | .getItem _ => true
  | .getUser _ => true
  | .postItem _ => false
  | .postUser _ => false

/-- An observable event in the lifecycle of the store session of the request
numbered req. -/
inductive SessionEvent where
  | acquired (req : Nat) : SessionEvent
  | released (req : Nat) : SessionEvent
deriving Repr, DecidableEq

/-- Modelled from the spec: app.db.session.get_db (app/db/session.py is
missing) — produces a scoped session per request, opened before the handler
runs and closed unconditionally afterwards in a finally block, whether the
handler returns or raises. Returns the handler's outcome together with the
session lifecycle trace of this request. -/
def get_db (req : Nat) (handler : Nat → Except HTTPException Response) :
    Except HTTPException Response × List SessionEvent :=
  match handler req with
  | Except.ok r => (Except.ok r, [SessionEvent.acquired req, SessionEvent.released req])
  | Except.error e => (Except.error e, [SessionEvent.acquired req, SessionEvent.released req])

/-- A store state is well formed when every assigned identity is positive
and below the auto-increment counter of its table, and identities are
unique within each table — the invariant every state reachable from a fresh
run satisfies. -/
def DB.WF (db : DB) : Prop :=
  0 < db.nextItemId ∧ 0 < db.nextUserId ∧
  (∀ it ∈ db.items, 0 < it.id ∧ it.id < db.nextItemId) ∧
  (∀ u ∈ db.users, 0 < u.id ∧ u.id < db.nextUserId) ∧
  (db.items.map Item.id).Nodup ∧ (db.users.map User.id).Nodup

instance (db : DB) : Decidable db.WF := by
  unfold DB.WF; infer_instance

/-- A sample reachable store state used to instantiate theorems: one item and
one user, both with identity 1, counters at 2. -/
def sampleDB : DB := ⟨[⟨1, "t", "d"⟩], [⟨1, "a@example.com"⟩], 2, 2⟩

/-- Claim C6: for every application state, GET / returns exactly the static
body with message "Welcome to the FastAPI application!", independent of any
records in the store. -/
theorem claim_C6_root_static (db : DB) :
    (handle Request.getRoot db).1 = Response.message "Welcome to the FastAPI application!" :=
  rfl

/-- Claim C7: the items and users routes are mounted under a configurable
versioned path whose default is "/api/v1", so by default they live at
/api/v1/items and /api/v1/users. -/
theorem claim_C7_versioned_mount :
    settings.API_V1_STR = "/api/v1" ∧
    itemsMountPath settings = "/api/v1/items" ∧
    usersMountPath settings = "/api/v1/users" ∧
    ∀ s : Settings, itemsMountPath s = s.API_V1_STR ++ "/items" ∧
      usersMountPath s = s.API_V1_STR ++ "/users" :=
  ⟨rfl, rfl, rfl, fun _ => ⟨rfl, rfl⟩⟩

/-- Claim C8: for every request, a store session is acquired scoped to that
request only and released unconditionally at the end of the request, whether
the handler succeeds or fails: the lifecycle trace of request req is exactly
acquire then release of that request's session, for every handler outcome,
and the handler's outcome is passed through. -/
theorem claim_C8_session_scoped (req : Nat)
    (handler : Nat → Except HTTPException Response) :
    (get_db req handler).2 = [SessionEvent.acquired req, SessionEvent.released req] ∧
    (get_db req handler).1 = handler req := by
  cases h : handler req <;> simp [get_db, h]

/-- Claim C9: whenever get_current_user fails, the HTTP 401 error carries
the detail string exactly "Invalid credentials"; in particular it does when
the email argument is omitted and defaults to None. -/
theorem claim_C9_unauthorized_detail :
    (∀ (db : DB) (email : Option String) (e : HTTPException),
      get_current_user db email = Except.error e →
        e = ⟨401, "Invalid credentials"⟩) ∧
    (∀ db : DB, get_current_user db none = Except.error ⟨401, "Invalid credentials"⟩) := by
  constructor
  · intro db email e h
    unfold get_current_user at h
    cases hg : get_user_by_email db email <;> rw [hg] at h <;> cases h
    rfl
  · intro db
    rfl

theorem claim_C9_witness :
    get_current_user emptyDB none = Except.error ⟨401, "Invalid credentials"⟩ ∧
    (⟨401, "Invalid credentials"⟩ : HTTPException) = ⟨401, "Invalid credentials"⟩ :=
  ⟨rfl, claim_C9_unauthorized_detail.1 emptyDB none ⟨401, "Invalid credentials"⟩ rfl⟩

/-- Claim C10: the GET handlers never modify the store — for every starting
state, the state after handling any GET request equals the starting state. -/
theorem claim_C10_get_preserves_state (req : Request) (db : DB)
    (h : req.isGet = true) : (handle req db).2 = db := by
  cases req with
  | getRoot => rfl
  | getItem i => cases hr : read_item db i <;> simp [handle, hr]
  | getUser i => cases hr : read_user db i <;> simp [handle, hr]
  | postItem b => cases h
  | postUser b => cases h

theorem claim_C10_witness :
    Request.isGet (Request.getItem 999) = true ∧
    (handle (Request.getItem 999) sampleDB).2 = sampleDB :=
  ⟨rfl, claim_C10_get_preserves_state (Request.getItem 999) sampleDB rfl⟩

/-- Claim C1: in every well-formed store state, a get-by-id performed
immediately after a create, with the identity the create returned and no
intervening operation, returns a record equal to the one the create
returned — for items and for users alike. -/
theorem claim_C1_create_then_get (db : DB) (hwf : db.WF)
    (ic : ItemCreate) (uc : UserCreate) :
    get_item (create_item db ic).2 (create_item db ic).1.id = some (create_item db ic).1 ∧
    get_user (create_user db uc).2 (create_user db uc).1.id = some (create_user db uc).1 := by
  obtain ⟨-, -, hitems, husers, -, -⟩ := hwf
  constructor
  · have hnone : db.items.find? (fun it => it.id == db.nextItemId) = none := by
      rw [List.find?_eq_none]
      intro it hit
      simp only [beq_iff_eq]
      exact ne_of_lt (hitems it hit).2
    simp [get_item, create_item, List.find?_append, hnone]
  · have hnone : db.users.find? (fun u => u.id == db.nextUserId) = none := by
      rw [List.find?_eq_none]
      intro u hu
      simp only [beq_iff_eq]
      exact ne_of_lt (husers u hu).2
    simp [get_user, create_user, List.find?_append, hnone]

theorem claim_C1_witness :
    DB.WF emptyDB ∧
    get_item (create_item emptyDB ⟨"t", "d"⟩).2 (create_item emptyDB ⟨"t", "d"⟩).1.id
      = some (create_item emptyDB ⟨"t", "d"⟩).1 ∧
    get_user (create_user emptyDB ⟨"a@example.com"⟩).2
        (create_user emptyDB ⟨"a@example.com"⟩).1.id
      = some (create_user emptyDB ⟨"a@example.com"⟩).1 := by
  refine ⟨by decide, ?_, ?_⟩
  · exact (claim_C1_create_then_get emptyDB (by decide) ⟨"t", "d"⟩ ⟨"a@example.com"⟩).1
  · exact (claim_C1_create_then_get emptyDB (by decide) ⟨"t", "d"⟩ ⟨"a@example.com"⟩).2

/-- Claim C2: for every integer id with no matching record, GET /items/id
responds 404 with detail exactly "Item not found" and GET /users/id responds
404 with detail exactly "User not found"; for an id whose record exists, the
handler returns that record. -/
theorem claim_C2_read_404_or_record (db : DB) (id : Int) :
    ((∀ it ∈ db.items, it.id ≠ id) →
      read_item db id = Except.error ⟨404, "Item not found"⟩) ∧
    (∀ it, get_item db id = some it →
      read_item db id = Except.ok it ∧ it ∈ db.items ∧ it.id = id) ∧
    ((∀ u ∈ db.users, u.id ≠ id) →
      read_user db id = Except.error ⟨404, "User not found"⟩) ∧
    (∀ u, get_user db id = some u →
      read_user db id = Except.ok u ∧ u ∈ db.users ∧ u.id = id) := by
  refine ⟨?_, ?_, ?_, ?_⟩
  · intro habs
    have hnone : get_item db id = none := by
      rw [get_item, List.find?_eq_none]
      intro it hit
      simp only [beq_iff_eq]
      exact habs it hit
    simp [read_item, hnone]
  · intro it hit
    have hfind : List.find? (fun it => it.id == id) db.items = some it := hit
    have hmem : it ∈ db.items := List.mem_of_find?_eq_some hfind
    have hid : it.id = id := by
      have := List.find?_some hfind
      simpa [beq_iff_eq] using this
    exact ⟨by simp [read_item, hit], hmem, hid⟩
  · intro habs
    have hnone : get_user db id = none := by
      rw [get_user, List.find?_eq_none]
      intro u hu
      simp only [beq_iff_eq]
      exact habs u hu
    simp [read_user, hnone]
  · intro u hu
    have hfind : List.find? (fun u => u.id == id) db.users = some u := hu
    have hmem : u ∈ db.users := List.mem_of_find?_eq_some hfind
    have hid : u.id = id := by
      have := List.find?_some hfind
      simpa [beq_iff_eq] using this
    exact ⟨by simp [read_user, hu], hmem, hid⟩

theorem claim_C2_witness :
    read_item sampleDB 999 = Except.error ⟨404, "Item not found"⟩ ∧
    read_user sampleDB 999 = Except.error ⟨404, "User not found"⟩ ∧
    read_item sampleDB 1 = Except.ok ⟨1, "t", "d"⟩ ∧
    read_user sampleDB 1 = Except.ok ⟨1, "a@example.com"⟩ := by
  refine ⟨(claim_C2_read_404_or_record sampleDB 999).1 (by decide),
    (claim_C2_read_404_or_record sampleDB 999).2.2.1 (by decide),
    ((claim_C2_read_404_or_record sampleDB 1).2.1 ⟨1, "t", "d"⟩ (by decide)).1,
    ((claim_C2_read_404_or_record sampleDB 1).2.2.2 ⟨1, "a@example.com"⟩ (by decide)).1⟩

/-- Claim C5: for every store state and every email value, get_current_user
fails with the 401 error exactly when the email lookup finds no user, returns
the found user otherwise, and for a concrete email the lookup finds no user
exactly when no stored user carries that email. -/
theorem claim_C5_current_user_lookup (db : DB) (email : Option String) :
    (get_current_user db email = Except.error ⟨401, "Invalid credentials"⟩ ↔
      get_user_by_email db email = none) ∧
    (∀ u, get_user_by_email db email = some u →
      get_current_user db email = Except.ok u) ∧
    (∀ e : String, get_user_by_email db (some e) = none ↔ ∀ u ∈ db.users, u.email ≠ e) := by
  refine ⟨?_, ?_, ?_⟩
  · cases hg : get_user_by_email db email <;> simp [get_current_user, hg]
  · intro u hu
    simp [get_current_user, hu]
  · intro e
    rw [get_user_by_email]
    simp [List.find?_eq_none]

theorem claim_C5_witness :
    get_current_user sampleDB (some "a@example.com") = Except.ok ⟨1, "a@example.com"⟩ ∧
    get_current_user sampleDB (some "b@example.com")
      = Except.error ⟨401, "Invalid credentials"⟩ :=
  ⟨(claim_C5_current_user_lookup sampleDB (some "a@example.com")).2.1
      ⟨1, "a@example.com"⟩ (by decide),
   (claim_C5_current_user_lookup sampleDB (some "b@example.com")).1.mpr (by decide)⟩

/-- Claim C3: in every well-formed store state, the record a create returns
has an assigned positive (hence non-null) identity, that identity differs
from every identity already recorded for the entity, well-formedness — in
particular uniqueness of identities — is preserved, and two sequential
creates yield two distinct identities; for items and for users alike. -/
theorem claim_C3_fresh_unique_ids (db : DB) (hwf : db.WF)
    (ic ic2 : ItemCreate) (uc uc2 : UserCreate) :
    (0 < (create_item db ic).1.id ∧
      (create_item db ic).1.id ∉ db.items.map Item.id ∧
      ((create_item db ic).2).WF ∧
      (create_item db ic).1.id ≠ (create_item (create_item db ic).2 ic2).1.id) ∧
    (0 < (create_user db uc).1.id ∧
      (create_user db uc).1.id ∉ db.users.map User.id ∧
      ((create_user db uc).2).WF ∧
      (create_user db uc).1.id ≠ (create_user (create_user db uc).2 uc2).1.id) := by
  obtain ⟨hi, hu, hitems, husers, hnodi, hnodu⟩ := hwf
  have hfreshi : db.nextItemId ∉ db.items.map Item.id := by
    intro hmem
    obtain ⟨it, hit, hideq⟩ := List.mem_map.mp hmem
    exact absurd hideq (ne_of_lt (hitems it hit).2)
  have hfreshu : db.nextUserId ∉ db.users.map User.id := by
    intro hmem
    obtain ⟨u2, hu2, hideq⟩ := List.mem_map.mp hmem
    exact absurd hideq (ne_of_lt (husers u2 hu2).2)
  simp only [create_item, create_user, DB.WF]
  refine ⟨⟨hi, hfreshi, ⟨by omega, hu, ?_, husers, ?_, hnodu⟩, by omega⟩,
    hu, hfreshu, ⟨hi, by omega, hitems, ?_, hnodi, ?_⟩, by omega⟩
  · intro it hit
    rcases List.mem_append.mp hit with hold | hnew
    · have hb := hitems it hold
      exact ⟨hb.1, by omega⟩
    · rcases List.mem_singleton.mp hnew with rfl
      refine ⟨hi, ?_⟩
      show db.nextItemId < db.nextItemId + 1
      omega
  · simp only [List.map_append, List.map_cons, List.map_nil]
    rw [List.nodup_append]
    refine ⟨hnodi, List.nodup_singleton _, ?_⟩
    intro a ha hb
    rcases List.mem_singleton.mp hb with rfl
    exact hfreshi ha
  · intro u2 hu2
    rcases List.mem_append.mp hu2 with hold | hnew
    · have hb := husers u2 hold
      exact ⟨hb.1, by omega⟩
    · rcases List.mem_singleton.mp hnew with rfl
      refine ⟨hu, ?_⟩
      show db.nextUserId < db.nextUserId + 1
      omega
  · simp only [List.map_append, List.map_cons, List.map_nil]
    rw [List.nodup_append]
    refine ⟨hnodu, List.nodup_singleton _, ?_⟩
    intro a ha hb
    rcases List.mem_singleton.mp hb with rfl
    exact hfreshu ha

theorem claim_C3_witness :
    DB.WF emptyDB ∧
    (create_item emptyDB ⟨"t", "d"⟩).1.id
      ≠ (create_item (create_item emptyDB ⟨"t", "d"⟩).2 ⟨"t2", "d2"⟩).1.id ∧
    (create_user emptyDB ⟨"a@example.com"⟩).1.id
      ≠ (create_user (create_user emptyDB ⟨"a@example.com"⟩).2 ⟨"b@example.com"⟩).1.id := by
  refine ⟨by decide, ?_, ?_⟩
  · exact (claim_C3_fresh_unique_ids emptyDB (by decide) ⟨"t", "d"⟩ ⟨"t2", "d2"⟩
      ⟨"a@example.com"⟩ ⟨"b@example.com"⟩).1.2.2.2
  · exact (claim_C3_fresh_unique_ids emptyDB (by decide) ⟨"t", "d"⟩ ⟨"t2", "d2"⟩
      ⟨"a@example.com"⟩ ⟨"b@example.com"⟩).2.2.2.2

/-- Claim C4: a body that validates against the Create schema makes the POST
handler delegate to the Data Access create and return the created record —
identity included — with the store updated to the create's result state; a
body that fails validation yields the client validation error and leaves the
store unchanged, so no record is created. -/
theorem claim_C4_post_validate_create (db : DB) (body : RawBody) :
    (∀ ic, parseItemCreate body = some ic →
      handle (Request.postItem body) db
        = (Response.itemBody (create_item db ic).1, (create_item db ic).2) ∧
      (create_item db ic).1.id = db.nextItemId) ∧
    (parseItemCreate body = none →
      handle (Request.postItem body) db = (Response.validationError, db)) ∧
    (∀ uc, parseUserCreate body = some uc →
      handle (Request.postUser body) db
        = (Response.userBody (create_user db uc).1, (create_user db uc).2) ∧
      (create_user db uc).1.id = db.nextUserId) ∧
    (parseUserCreate body = none →
      handle (Request.postUser body) db = (Response.validationError, db)) := by
  refine ⟨?_, ?_, ?_, ?_⟩
  · intro ic hic
    exact ⟨by simp [handle, hic], rfl⟩
  · intro hnone
    simp [handle, hnone]
  · intro uc huc
    exact ⟨by simp [handle, huc], rfl⟩
  · intro hnone
    simp [handle, hnone]

theorem claim_C4_witness :
    handle (Request.postItem [("title", "t"), ("description", "d")]) emptyDB
      = (Response.itemBody ⟨1, "t", "d"⟩, ⟨[⟨1, "t", "d"⟩], [], 2, 1⟩) ∧
    handle (Request.postItem []) emptyDB = (Response.validationError, emptyDB) ∧
    handle (Request.postUser [("email", "a@example.com")]) emptyDB
      = (Response.userBody ⟨1, "a@example.com"⟩, ⟨[], [⟨1, "a@example.com"⟩], 1, 2⟩) ∧
    handle (Request.postUser []) emptyDB = (Response.validationError, emptyDB) := by
  refine ⟨?_, ?_, ?_, ?_⟩
  · exact ((claim_C4_post_validate_create emptyDB [("title", "t"), ("description", "d")]).1
      ⟨"t", "d"⟩ (by decide)).1
  · exact (claim_C4_post_validate_create emptyDB []).2.1 (by decide)
  · exact ((claim_C4_post_validate_create emptyDB [("email", "a@example.com")]).2.2.1
      ⟨"a@example.com"⟩ (by decide)).1
  · exact (claim_C4_post_validate_create emptyDB []).2.2.2 (by decide)

end Careers
